import Mathlib

/-
  Verification development for the PLDM OEM IBM DMA file-transfer responder
  (oem/ibm/libpldmresponder/file_io.hpp).

  The embedding mirrors the source:
  - machine integers are Nat with explicit % 2^32 / % 2^64 where the C++
    arithmetic is uint32_t / uint64_t, and Int where the C++ type is a
    signed int (file descriptors, transferDataHost return codes);
  - the DMA class members become the DMAState record (memAddr becomes the
    Boolean mapped, the two smart pointers iotPtr / iotPtrbc and timer
    become Booleans recording whether the object is held);
  - the readiness lambda of transferAll (its while loop over dma::maxSize
    sized chunks followed by the final transferDataHost call) becomes
    cbLoopAux / callbackRun, with the return codes of the successive
    transferDataHost calls supplied by an oracle rc : Nat -> Int;
  - the timer lambda becomes timerStep; the body of transferAll up to the
    registration of the IO instance becomes transferAllRun.
-/

/- 2^32, the modulus of uint32_t arithmetic. -/
def U32 : Nat := 2 ^ 32

/- 2^64, the modulus of uint64_t arithmetic. -/
def U64 : Nat := 2 ^ 64

/- constexpr uint32_t minSize = 16 (minimum DMA transfer size in bytes). -/
def minSize : Nat := 16

/- PLDM completion codes used by encode_rw_file_memory_resp. -/
def PLDM_SUCCESS : Nat := 0

def PLDM_ERROR : Nat := 1

/- static_cast<int>(n) for a uint32_t value n: reinterpret mod 2^32 as a
   32-bit signed integer. -/
def toInt32 (n : Nat) : Int :=
  if n % U32 < 2 ^ 31 then ((n % U32 : Nat) : Int) else ((n % U32 : Nat) : Int) - (U32 : Int)

/- struct IOPart { uint32_t length; uint32_t offset; uint64_t address; }. -/
structure IOPart where
  length : Nat
  offset : Nat
  address : Nat
deriving DecidableEq

/- A PLDM response as built by encode_rw_file_memory_resp: the completion
   code byte and the 4-byte length field (header fields are not modelled). -/
structure Resp where
  completionCode : Nat
  lengthField : Nat
deriving DecidableEq

/- The members of class DMA.  memAddr is tracked as the Boolean mapped
   (true once mmap has succeeded and until a munmap would clear it);
   iotPtr / iotPtrbc / timer record whether the unique_ptr (resp. the raw
   backup pointer) currently holds an object. -/
structure DMAState where
  responseReceived : Bool
  mapped : Bool
  xdmaFd : Int
  sourceFd : Int
  pageAlignedLength : Nat
  ioPtr : Bool
  ioPtrbc : Bool
  timer : Bool
  m_length : Nat
deriving DecidableEq

/- DMA::DMA(uint32_t length): all members cleared; pageAlignedLength is
   numPages * pageSize, plus one extra page when length is not a page
   multiple, computed in uint32_t (hence the % U32 on the increment). -/
def DMAState.init (length pageSize : Nat) : DMAState :=
  let numPages := length / pageSize
  let pal := numPages * pageSize
  { responseReceived := false
    mapped := false
    xdmaFd := -1
    sourceFd := -1
    pageAlignedLength := if pal < length then (pal + pageSize) % U32 else pal
    ioPtr := false
    ioPtrbc := false
    timer := false
    m_length := length }

/- void DMA::setDMASourceFd(int fd) { sourceFd = fd; } -/
def DMAState.setDMASourceFd (s : DMAState) (fd : Int) : DMAState :=
  { s with sourceFd := fd }

/- void DMA::setXDMASourceFd(int fd) { xdmaFd = fd; } -/
def DMAState.setXDMASourceFd (s : DMAState) (fd : Int) : DMAState :=
  { s with xdmaFd := fd }

/- int DMA::getNewXdmaFd(): xdmaFd = open(xdmaDev, O_RDWR | O_NONBLOCK);
   the outcome of the open syscall is supplied as openResult. -/
def DMAState.getNewXdmaFd (s : DMAState) (openResult : Int) : DMAState :=
  { s with xdmaFd := openResult }

/- void* DMA::getXDMAsharedlocation(): returns MAP_FAILED (here: false)
   when xdmaFd < 0 or when mmap fails; on success records the mapping in
   memAddr (here: mapped := true).  Nothing in the class ever unmaps. -/
def DMAState.getXDMAsharedlocation (s : DMAState) (mmapOk : Bool) : Bool × DMAState :=
  if s.xdmaFd < 0 then (false, s)
  else if mmapOk then (true, { s with mapped := true })
  else (false, s)

/- void DMA::deleteIOInstance(): deletes the timer (release + delete) and
   releases iotPtr into the raw pointer iotPtrbc WITHOUT deleting it, so
   the IO event registration object stays alive. -/
def DMAState.deleteIOInstance (s : DMAState) : DMAState :=
  let s1 := if s.timer then { s with timer := false } else s
  if s1.ioPtr then { s1 with ioPtr := false, ioPtrbc := true } else s1

/- void DMA::setResponseReceived(bool). -/
def DMAState.setResponseReceived (s : DMAState) (b : Bool) : DMAState :=
  { s with responseReceived := b }

/- DMA::~DMA(): release iotPtr into iotPtrbc, delete iotPtrbc, delete the
   timer, close xdmaFd if (xdmaFd > 0), close sourceFd if (sourceFd > 0).
   Returns the list of file descriptors passed to close, in order, next to
   the final state.  Note: no munmap of memAddr appears in the destructor
   (mapped is left unchanged). -/
def DMAState.destruct (s : DMAState) : List Int × DMAState :=
  ((if 0 < s.xdmaFd then [s.xdmaFd] else []) ++
      (if 0 < s.sourceFd then [s.sourceFd] else []),
    { s with
      ioPtr := false
      ioPtrbc := false
      timer := false
      xdmaFd := if 0 < s.xdmaFd then -1 else s.xdmaFd
      sourceFd := if 0 < s.sourceFd then -1 else s.sourceFd })

/- The IO event source stays registered with the event loop as long as the
   IO object is alive, whether owned by iotPtr or leaked into iotPtrbc. -/
def DMAState.ioRegistered (s : DMAState) : Bool := s.ioPtr || s.ioPtrbc

/- Result of one run of the while loop inside the readiness lambda of
   transferAll: the transferDataHost calls issued (arguments of each call
   as an IOPart), the value of the static part afterwards, the next index
   into the return-code oracle, and whether a call returned rc < 0. -/
structure LoopOut where
  calls : List IOPart
  part : IOPart
  k : Nat
  failed : Bool
deriving DecidableEq

/- while (part.length > dma::maxSize) {
     rc = transferDataHost(file, part.offset, maxSize, part.address, upstream);
     part.length -= maxSize; part.offset += maxSize; part.address += maxSize;
     if (rc < 0) { ... return; } }
   The cursor advances BEFORE the rc < 0 check, exactly as in the source.
   Recursion is on a fuel argument; transferAll enters the loop with
   fuel = part.length, which bounds the iteration count since maxSize >= 1. -/
def cbLoopAux (maxSize : Nat) (rc : Nat → Int) : Nat → IOPart → Nat → LoopOut
  | 0, part, k => ⟨[], part, k, false⟩
  | fuel + 1, part, k =>
    if maxSize < part.length then
      let part2 : IOPart :=
        ⟨part.length - maxSize, (part.offset + maxSize) % U32, (part.address + maxSize) % U64⟩
      if rc k < 0 then
        ⟨[⟨maxSize, part.offset, part.address⟩], part2, k + 1, true⟩
      else
        let rest := cbLoopAux maxSize rc fuel part2 (k + 1)
        ⟨⟨maxSize, part.offset, part.address⟩ :: rest.calls, rest.part, rest.k, rest.failed⟩
    else ⟨[], part, k, false⟩

/- Result of one invocation of the readiness lambda: the transferDataHost
   calls it issued, the response it sent (if any), whether it called
   setResponseReceived(true), whether it called deleteIOInstance, and the
   value of the static part afterwards. -/
structure CbResult where
  calls : List IOPart
  response : Option Resp
  latchSet : Bool
  cleaned : Bool
  part : IOPart
deriving DecidableEq

/- The readiness lambda of transferAll, after its revents mask check: the
   while loop over full maxSize chunks, then the final
   transferDataHost(file, part.offset, part.length, part.address, upstream)
   whose return code is compared against static_cast<int>(part.length).
   On rc < 0 it sends (PLDM_ERROR, 0); on rc == static_cast<int>(part.length)
   it sets the latch and sends (PLDM_SUCCESS, origLength); otherwise it
   returns without sending anything and without cleanup.  The latch
   (responseReceived) is never read here. -/
def callbackRun (maxSize origLength : Nat) (rc : Nat → Int) (part : IOPart) : CbResult :=
  let o := cbLoopAux maxSize rc part.length part 0
  if o.failed then
    { calls := o.calls
      response := some ⟨PLDM_ERROR, 0⟩
      latchSet := false
      cleaned := true
      part := o.part }
  else
    let r := rc o.k
    if r < 0 then
      { calls := o.calls ++ [o.part]
        response := some ⟨PLDM_ERROR, 0⟩
        latchSet := false
        cleaned := true
        part := o.part }
    else if r = toInt32 o.part.length then
      { calls := o.calls ++ [o.part]
        response := some ⟨PLDM_SUCCESS, origLength⟩
        latchSet := true
        cleaned := true
        part := o.part }
    else
      { calls := o.calls ++ [o.part]
        response := none
        latchSet := false
        cleaned := false
        part := o.part }

/- The per-session runtime state driven by the event loop: the DMA object,
   the (function-local static, hence shared) IOPart, the captured
   origLength, and the responses sent so far through sendPLDMRespMsg. -/
structure TransferState where
  dma : DMAState
  part : IOPart
  origLength : Nat
  sent : List Resp

/- Delivery of a readiness event (EPOLLIN or EPOLLOUT) to the IO callback:
   possible exactly while the IO object is alive (registered). -/
def readyStep (maxSize : Nat) (rc : Nat → Int) (t : TransferState) : TransferState :=
  if t.dma.ioRegistered then
    let res := callbackRun maxSize t.origLength rc t.part
    let dma1 := if res.latchSet then t.dma.setResponseReceived true else t.dma
    let dma2 := if res.cleaned then dma1.deleteIOInstance else dma1
    { dma := dma2
      part := res.part
      origLength := t.origLength
      sent := t.sent ++ res.response.toList }
  else t

/- The timer lambda of transferAll: if (!intf->getResponseReceived()) it
   sends (PLDM_ERROR, 0) and calls deleteIOInstance (which deletes the
   timer itself); if the latch is set it does nothing.  A fire is only
   possible while the timer object exists. -/
def timerStep (t : TransferState) : TransferState :=
  if t.dma.timer then
    if t.dma.responseReceived then t
    else
      { t with
        sent := t.sent ++ [⟨PLDM_ERROR, 0⟩]
        dma := t.dma.deleteIOInstance }
  else t

/- Events the reactor can deliver to a session. -/
inductive Ev where
  | ready (rc : Nat → Int)
  | timerFire

def stepEv (maxSize : Nat) (t : TransferState) : Ev → TransferState
  | Ev.ready rc => readyStep maxSize rc t
  | Ev.timerFire => timerStep t

def runEvents (maxSize : Nat) : TransferState → List Ev → TransferState
  | t, [] => t
  | t, e :: es => runEvents maxSize (stepEv maxSize t e) es

/- Outcome of running the body of transferAll (for a non-null interface)
   up to its return: responses sent synchronously, file descriptors closed
   directly by transferAll itself before returning, the DMA state at the
   point of return, the value written into the static part, and the timer
   parameters (absolute deadline, retrigger interval) when armed. -/
structure SetupOut where
  sent : List Resp
  closedDuring : List Int
  dma : DMAState
  part : IOPart
  timerSpec : Option (Nat × Nat)
deriving DecidableEq

/- Timer construction in DMA::initTimer:
   Timer(event, Clock(event).now() + std::chrono::seconds{20},
         std::chrono::seconds{1}, callback). -/
def timerDeadline (now : Nat) : Nat := now + 20

def timerInterval : Nat := 1

/- The body of transferAll for a non-null interface:
   setDMASourceFd(file); the static part is overwritten with this call's
   request (part.length = length; part.offset = offset;
   part.address = address) - the single static cell is shared by every
   call; then getNewXdmaFd (open outcome xdmaOpenResult), and on failure
   (xdmaFd < 0) one (PLDM_ERROR, 0) response, deleteIOInstance, and return
   WITHOUT closing the source file descriptor (the reset() acts on a
   temporary copy of the shared_ptr and destroys nothing); likewise for
   initTimer failure and for a throwing IO construction; on success the
   timer is armed (deadline now + 20 s, interval 1 s) and the IO instance
   registered. -/
def transferAllRun (dma0 : DMAState) (now : Nat) (file : Int)
    (offset length address : Nat) (xdmaOpenResult : Int)
    (timerOk ioOk : Bool) : SetupOut :=
  let dma1 := dma0.setDMASourceFd file
  let part : IOPart := ⟨length, offset, address⟩
  let dma2 := dma1.getNewXdmaFd xdmaOpenResult
  if xdmaOpenResult < 0 then
    { sent := [⟨PLDM_ERROR, 0⟩]
      closedDuring := []
      dma := dma2.deleteIOInstance
      part := part
      timerSpec := none }
  else if timerOk = false then
    { sent := [⟨PLDM_ERROR, 0⟩]
      closedDuring := []
      dma := dma2.deleteIOInstance
      part := part
      timerSpec := none }
  else
    let dma3 := { dma2 with timer := true }
    if ioOk = false then
      { sent := [⟨PLDM_ERROR, 0⟩]
        closedDuring := []
        dma := dma3.deleteIOInstance
        part := part
        timerSpec := none }
    else
      { sent := []
        closedDuring := []
        dma := { dma3 with ioPtr := true }
        part := part
        timerSpec := some (timerDeadline now, timerInterval) }

/- The armed session right after a successful transferAll setup. -/
def SetupOut.session (o : SetupOut) (origLength : Nat) : TransferState :=
  { dma := o.dma, part := o.part, origLength := origLength, sent := o.sent }

/- Chunk chaining: the first element starts at the given offset/address and
   every following element starts where the previous one ended. -/
def chainedFrom (off addr : Nat) : List IOPart → Bool
  | [] => true
  | c :: cs =>
    (c.offset == off) && (c.address == addr) && chainedFrom (off + c.length) (addr + c.length) cs

theorem sum_const_length (m : Nat) :
    ∀ l : List IOPart, (∀ c ∈ l, c.length = m) →
      (l.map fun c => c.length).sum = m * l.length := by
  intro l
  induction l with
  | nil => intro _; simp
  | cons c cs ih =>
    intro h
    simp only [List.map_cons, List.sum_cons, List.length_cons]
    rw [h c (by simp), ih (fun x hx => h x (by simp [hx]))]
    ring

theorem cbLoop_success (maxSize : Nat) (hm : 0 < maxSize) (rc : Nat → Int)
    (hrc : ∀ k, 0 ≤ rc k) :
    ∀ (fuel : Nat) (part : IOPart) (k : Nat),
      part.length ≤ fuel → 0 < part.length →
      part.offset + part.length ≤ U32 → part.address + part.length ≤ U64 →
      (cbLoopAux maxSize rc fuel part k).failed = false ∧
      (cbLoopAux maxSize rc fuel part k).calls.length = (part.length - 1) / maxSize ∧
      (∀ c ∈ (cbLoopAux maxSize rc fuel part k).calls, c.length = maxSize) ∧
      (cbLoopAux maxSize rc fuel part k).part.length
        = part.length - maxSize * (cbLoopAux maxSize rc fuel part k).calls.length ∧
      0 < (cbLoopAux maxSize rc fuel part k).part.length ∧
      (cbLoopAux maxSize rc fuel part k).part.length ≤ maxSize ∧
      (cbLoopAux maxSize rc fuel part k).part.offset
        = part.offset + maxSize * (cbLoopAux maxSize rc fuel part k).calls.length ∧
      (cbLoopAux maxSize rc fuel part k).part.address
        = part.address + maxSize * (cbLoopAux maxSize rc fuel part k).calls.length ∧
      (cbLoopAux maxSize rc fuel part k).k
        = k + (cbLoopAux maxSize rc fuel part k).calls.length ∧
      chainedFrom part.offset part.address
        ((cbLoopAux maxSize rc fuel part k).calls ++
          [(cbLoopAux maxSize rc fuel part k).part]) = true := by
  intro fuel
  induction fuel with
  | zero =>
    intro part k hfuel hlen hoff haddr
    omega
  | succ n ih =>
    intro part k hfuel hlen hoff haddr
    by_cases hgt : maxSize < part.length
    · have hub : part.offset + maxSize < U32 := by omega
      have hub64 : part.address + maxSize < U64 := by omega
      have hmod : (part.offset + maxSize) % U32 = part.offset + maxSize :=
        Nat.mod_eq_of_lt hub
      have hmod64 : (part.address + maxSize) % U64 = part.address + maxSize :=
        Nat.mod_eq_of_lt hub64
      have hneg : ¬ rc k < 0 := by have := hrc k; omega
      simp only [cbLoopAux, if_pos hgt, if_neg hneg, hmod, hmod64]
      have hb1 : (⟨part.length - maxSize, part.offset + maxSize, part.address + maxSize⟩ :
          IOPart).length ≤ n := by
        show part.length - maxSize ≤ n
        omega
      have hb2 : 0 < (⟨part.length - maxSize, part.offset + maxSize, part.address + maxSize⟩ :
          IOPart).length := by
        show 0 < part.length - maxSize
        omega
      have hb3 : (⟨part.length - maxSize, part.offset + maxSize, part.address + maxSize⟩ :
            IOPart).offset +
          (⟨part.length - maxSize, part.offset + maxSize, part.address + maxSize⟩ :
            IOPart).length ≤ U32 := by
        show part.offset + maxSize + (part.length - maxSize) ≤ U32
        omega
      have hb4 : (⟨part.length - maxSize, part.offset + maxSize, part.address + maxSize⟩ :
            IOPart).address +
          (⟨part.length - maxSize, part.offset + maxSize, part.address + maxSize⟩ :
            IOPart).length ≤ U64 := by
        show part.address + maxSize + (part.length - maxSize) ≤ U64
        omega
      obtain ⟨hf, hcl, hall, hplen, hppos, hple, hpoff, hpaddr, hk, hchain⟩ :=
        ih ⟨part.length - maxSize, part.offset + maxSize, part.address + maxSize⟩ (k + 1)
          hb1 hb2 hb3 hb4
      have hcl2 : (cbLoopAux maxSize rc n
          ⟨part.length - maxSize, part.offset + maxSize, part.address + maxSize⟩
          (k + 1)).calls.length = (part.length - maxSize - 1) / maxSize := hcl
      have hplen2 : (cbLoopAux maxSize rc n
          ⟨part.length - maxSize, part.offset + maxSize, part.address + maxSize⟩
          (k + 1)).part.length = (part.length - maxSize) - maxSize *
          (cbLoopAux maxSize rc n
            ⟨part.length - maxSize, part.offset + maxSize, part.address + maxSize⟩
            (k + 1)).calls.length := hplen
      have hpoff2 : (cbLoopAux maxSize rc n
          ⟨part.length - maxSize, part.offset + maxSize, part.address + maxSize⟩
          (k + 1)).part.offset = part.offset + maxSize + maxSize *
          (cbLoopAux maxSize rc n
            ⟨part.length - maxSize, part.offset + maxSize, part.address + maxSize⟩
            (k + 1)).calls.length := hpoff
      have hpaddr2 : (cbLoopAux maxSize rc n
          ⟨part.length - maxSize, part.offset + maxSize, part.address + maxSize⟩
          (k + 1)).part.address = part.address + maxSize + maxSize *
          (cbLoopAux maxSize rc n
            ⟨part.length - maxSize, part.offset + maxSize, part.address + maxSize⟩
            (k + 1)).calls.length := hpaddr
      have hchain2 : chainedFrom (part.offset + maxSize) (part.address + maxSize)
          ((cbLoopAux maxSize rc n
            ⟨part.length - maxSize, part.offset + maxSize, part.address + maxSize⟩
            (k + 1)).calls ++ [(cbLoopAux maxSize rc n
            ⟨part.length - maxSize, part.offset + maxSize, part.address + maxSize⟩
            (k + 1)).part]) = true := hchain
      refine ⟨hf, ?_, ?_, ?_, hppos, hple, ?_, ?_, ?_, ?_⟩
      · simp only [List.length_cons, hcl2]
        have h1 : part.length - 1 = (part.length - maxSize - 1) + maxSize := by omega
        rw [h1, Nat.add_div_right _ hm]
      · intro c hc
        rcases List.mem_cons.mp hc with h | h
        · subst h; rfl
        · exact hall c h
      · simp only [List.length_cons, hplen2, Nat.mul_succ]
        omega
      · simp only [List.length_cons, hpoff2, Nat.mul_succ]
        omega
      · simp only [List.length_cons, hpaddr2, Nat.mul_succ]
        omega
      · simp only [List.length_cons]
        have hk2 : (cbLoopAux maxSize rc n
            ⟨part.length - maxSize, part.offset + maxSize, part.address + maxSize⟩
            (k + 1)).k = (k + 1) + (cbLoopAux maxSize rc n
            ⟨part.length - maxSize, part.offset + maxSize, part.address + maxSize⟩
            (k + 1)).calls.length := hk
        omega
      · simp only [List.cons_append, chainedFrom, beq_self_eq_true, Bool.true_and]
        exact hchain2
    · simp only [cbLoopAux, if_neg hgt]
      have hle : part.length ≤ maxSize := by omega
      refine ⟨trivial, ?_, ?_, ?_, hlen, hle, ?_, ?_, ?_, ?_⟩
      · simp only [List.length_nil]
        have : part.length - 1 < maxSize := by omega
        exact (Nat.div_eq_of_lt this).symm
      · intro c hc
        exact absurd hc (List.not_mem_nil c)
      · simp
      · simp
      · simp
      · simp
      · simp only [List.nil_append, chainedFrom, beq_self_eq_true, Bool.true_and]

theorem callbackRun_calls (maxSize origLength : Nat) (rc : Nat → Int) (part : IOPart)
    (h : (cbLoopAux maxSize rc part.length part 0).failed = false) :
    (callbackRun maxSize origLength rc part).calls
      = (cbLoopAux maxSize rc part.length part 0).calls
        ++ [(cbLoopAux maxSize rc part.length part 0).part] := by
  simp only [callbackRun, h, Bool.false_eq_true, if_false]
  split
  · rfl
  · split <;> rfl

/-- C3: for an accepted transfer of length L (no overflow of offset + L or
address + L, L > 0) whose transferDataHost calls all return nonnegative
counts, the readiness callback issues exactly ceil(L / maxSize) calls, all
but the last of size maxSize, the last equal to the remainder, each call
starting where the previous one ended (the first at the request's offset
and address), and the call lengths summing to L. -/
theorem C3_chunk_plan (maxSize L offset address origLength : Nat) (rc : Nat → Int)
    (hm : 0 < maxSize) (hL : 0 < L) (hoff : offset + L ≤ U32) (haddr : address + L ≤ U64)
    (hrc : ∀ k, 0 ≤ rc k) :
    (callbackRun maxSize origLength rc ⟨L, offset, address⟩).calls.length
        = (L + maxSize - 1) / maxSize ∧
    (∃ cs c, (callbackRun maxSize origLength rc ⟨L, offset, address⟩).calls = cs ++ [c] ∧
        (∀ x ∈ cs, x.length = maxSize) ∧ c.length = L - maxSize * cs.length) ∧
    chainedFrom offset address
        (callbackRun maxSize origLength rc ⟨L, offset, address⟩).calls = true ∧
    ((callbackRun maxSize origLength rc ⟨L, offset, address⟩).calls.map
        fun c => c.length).sum = L := by
  obtain ⟨hf, hcl, hall, hplen, hppos, hple, hpoff, hpaddr, hk, hchain⟩ :=
    cbLoop_success maxSize hm rc hrc L ⟨L, offset, address⟩ 0 (le_refl L) hL hoff haddr
  have hf2 : (cbLoopAux maxSize rc (⟨L, offset, address⟩ : IOPart).length
      ⟨L, offset, address⟩ 0).failed = false := hf
  have hcalls := callbackRun_calls maxSize origLength rc ⟨L, offset, address⟩ hf2
  have hcl2 : (cbLoopAux maxSize rc L ⟨L, offset, address⟩ 0).calls.length
      = (L - 1) / maxSize := hcl
  have hplen2 : (cbLoopAux maxSize rc L ⟨L, offset, address⟩ 0).part.length
      = L - maxSize * (cbLoopAux maxSize rc L ⟨L, offset, address⟩ 0).calls.length := hplen
  have hchain2 : chainedFrom offset address
      ((cbLoopAux maxSize rc L ⟨L, offset, address⟩ 0).calls
        ++ [(cbLoopAux maxSize rc L ⟨L, offset, address⟩ 0).part]) = true := hchain
  have hcalls2 : (callbackRun maxSize origLength rc ⟨L, offset, address⟩).calls
      = (cbLoopAux maxSize rc L ⟨L, offset, address⟩ 0).calls
        ++ [(cbLoopAux maxSize rc L ⟨L, offset, address⟩ 0).part] := hcalls
  refine ⟨?_, ?_, ?_, ?_⟩
  · rw [hcalls2]
    simp only [List.length_append, List.length_singleton, hcl2]
    have h1 : L + maxSize - 1 = (L - 1) + maxSize := by omega
    rw [h1, Nat.add_div_right _ hm]
  · refine ⟨(cbLoopAux maxSize rc L ⟨L, offset, address⟩ 0).calls,
      (cbLoopAux maxSize rc L ⟨L, offset, address⟩ 0).part, hcalls2, hall, hplen2⟩
  · rw [hcalls2]; exact hchain2
  · rw [hcalls2]
    have hsum := sum_const_length maxSize
      (cbLoopAux maxSize rc L ⟨L, offset, address⟩ 0).calls hall
    simp only [List.map_append, List.sum_append, List.map_cons, List.map_nil,
      List.sum_cons, List.sum_nil, hsum, hplen2]
    omega

/-- C4 (amended): one invocation of the readiness callback submits every
chunk of the plan back to back - ceil(L / maxSize) transferDataHost calls,
hence at least two when L exceeds maxSize - before returning control to
the reactor; the session does not yield between chunks. -/
theorem C4_all_chunks_single_invocation (maxSize L offset address origLength : Nat)
    (rc : Nat → Int) (hm : 0 < maxSize) (hL : maxSize < L) (hoff : offset + L ≤ U32)
    (haddr : address + L ≤ U64) (hrc : ∀ k, 0 ≤ rc k) :
    (callbackRun maxSize origLength rc ⟨L, offset, address⟩).calls.length
        = (L + maxSize - 1) / maxSize ∧
    2 ≤ (callbackRun maxSize origLength rc ⟨L, offset, address⟩).calls.length := by
  obtain ⟨hf, hcl, hall, hplen, hppos, hple, hpoff, hpaddr, hk, hchain⟩ :=
    cbLoop_success maxSize hm rc hrc L ⟨L, offset, address⟩ 0 (le_refl L) (by show 0 < L; omega) hoff haddr
  have hf2 : (cbLoopAux maxSize rc (⟨L, offset, address⟩ : IOPart).length
      ⟨L, offset, address⟩ 0).failed = false := hf
  have hcalls2 : (callbackRun maxSize origLength rc ⟨L, offset, address⟩).calls
      = (cbLoopAux maxSize rc L ⟨L, offset, address⟩ 0).calls
        ++ [(cbLoopAux maxSize rc L ⟨L, offset, address⟩ 0).part] :=
    callbackRun_calls maxSize origLength rc ⟨L, offset, address⟩ hf2
  have hcl2 : (cbLoopAux maxSize rc L ⟨L, offset, address⟩ 0).calls.length
      = (L - 1) / maxSize := hcl
  have hlen : (callbackRun maxSize origLength rc ⟨L, offset, address⟩).calls.length
      = (L + maxSize - 1) / maxSize := by
    rw [hcalls2]
    simp only [List.length_append, List.length_singleton, hcl2]
    have h1 : L + maxSize - 1 = (L - 1) + maxSize := by omega
    rw [h1, Nat.add_div_right _ hm]
  refine ⟨hlen, ?_⟩
  rw [hlen]
  rw [Nat.le_div_iff_mul_le hm]
  omega

/-- C6: every response emitted by the readiness callback is either
(PLDM_ERROR, 0) or (PLDM_SUCCESS, origLength); the success response (and
the latch) is produced exactly when no chunk failed and the final
transferDataHost return equals static_cast<int> of the expected tail
length; a while-loop failure yields the error response; and a watchdog
fire with the latch unset appends the (PLDM_ERROR, 0) response. -/
theorem C6_terminal_responses (maxSize origLength : Nat) (rc : Nat → Int) (part : IOPart) :
    (∀ r, (callbackRun maxSize origLength rc part).response = some r →
        r = ⟨PLDM_ERROR, 0⟩ ∨ r = ⟨PLDM_SUCCESS, origLength⟩) ∧
    ((callbackRun maxSize origLength rc part).response = some ⟨PLDM_SUCCESS, origLength⟩ ↔
        (cbLoopAux maxSize rc part.length part 0).failed = false ∧
        ¬ rc (cbLoopAux maxSize rc part.length part 0).k < 0 ∧
        rc (cbLoopAux maxSize rc part.length part 0).k
          = toInt32 (cbLoopAux maxSize rc part.length part 0).part.length) ∧
    ((callbackRun maxSize origLength rc part).latchSet = true ↔
        (callbackRun maxSize origLength rc part).response = some ⟨PLDM_SUCCESS, origLength⟩) ∧
    ((cbLoopAux maxSize rc part.length part 0).failed = true →
        (callbackRun maxSize origLength rc part).response = some ⟨PLDM_ERROR, 0⟩) ∧
    (∀ t : TransferState, t.dma.timer = true → t.dma.responseReceived = false →
        (timerStep t).sent = t.sent ++ [⟨PLDM_ERROR, 0⟩]) := by
  refine ⟨?_, ?_, ?_, ?_, ?_⟩
  · intro r hr
    cases hb : (cbLoopAux maxSize rc part.length part 0).failed with
    | true =>
      simp only [callbackRun, hb, if_true] at hr
      exact Or.inl (Option.some_injective _ hr).symm
    | false =>
      simp only [callbackRun, hb, Bool.false_eq_true, if_false] at hr
      split at hr
      · exact Or.inl (Option.some_injective _ hr).symm
      · split at hr
        · exact Or.inr (Option.some_injective _ hr).symm
        · exact absurd hr (by simp)
  · cases hb : (cbLoopAux maxSize rc part.length part 0).failed with
    | true =>
      simp only [callbackRun, hb, if_true]
      constructor
      · intro hr
        have := (Option.some_injective _ hr)
        have h01 : PLDM_ERROR = PLDM_SUCCESS := congrArg Resp.completionCode this
        exact absurd h01 (by simp [PLDM_ERROR, PLDM_SUCCESS])
      · intro ⟨hfalse, _, _⟩
        simp at hfalse
    | false =>
      simp only [callbackRun, hb, Bool.false_eq_true, if_false]
      by_cases hr : rc (cbLoopAux maxSize rc part.length part 0).k < 0
      · simp only [if_pos hr]
        constructor
        · intro hsome
          have := (Option.some_injective _ hsome)
          have h01 : PLDM_ERROR = PLDM_SUCCESS := congrArg Resp.completionCode this
          exact absurd h01 (by simp [PLDM_ERROR, PLDM_SUCCESS])
        · intro ⟨_, hnr, _⟩
          exact absurd hr hnr
      · simp only [if_neg hr]
        by_cases he : rc (cbLoopAux maxSize rc part.length part 0).k
            = toInt32 (cbLoopAux maxSize rc part.length part 0).part.length
        · simp only [if_pos he]
          exact ⟨fun _ => ⟨trivial, hr, he⟩, fun _ => trivial⟩
        · simp only [if_neg he]
          constructor
          · intro hsome
            exact absurd hsome (by simp)
          · intro ⟨_, _, he2⟩
            exact absurd he2 he
  · cases hb : (cbLoopAux maxSize rc part.length part 0).failed with
    | true =>
      simp only [callbackRun, hb, if_true]
      constructor
      · intro hfalse
        simp at hfalse
      · intro hr
        have := (Option.some_injective _ hr)
        have h01 : PLDM_ERROR = PLDM_SUCCESS := congrArg Resp.completionCode this
        exact absurd h01 (by simp [PLDM_ERROR, PLDM_SUCCESS])
    | false =>
      simp only [callbackRun, hb, Bool.false_eq_true, if_false]
      by_cases hr : rc (cbLoopAux maxSize rc part.length part 0).k < 0
      · simp only [if_pos hr]
        constructor
        · intro hfalse
          simp at hfalse
        · intro hsome
          have := (Option.some_injective _ hsome)
          have h01 : PLDM_ERROR = PLDM_SUCCESS := congrArg Resp.completionCode this
          exact absurd h01 (by simp [PLDM_ERROR, PLDM_SUCCESS])
      · simp only [if_neg hr]
        by_cases he : rc (cbLoopAux maxSize rc part.length part 0).k
            = toInt32 (cbLoopAux maxSize rc part.length part 0).part.length
        · simp only [if_pos he]
        · simp only [if_neg he]
          constructor
          · intro hfalse
            simp at hfalse
          · intro hsome
            exact absurd hsome (by simp)
  · intro hb
    simp only [callbackRun, hb, if_true]
  · intro t ht hrr
    simp only [timerStep, ht, hrr, if_true, Bool.false_eq_true, if_false]

/-- C7 (amended): when the DMA device fd cannot be obtained at session
setup (open returns a negative value), transferAll sends exactly one
synchronous (PLDM_ERROR, 0) response, never registers the IO instance nor
arms the timer - so no transfer is ever attempted (a readiness event is a
no-op on the resulting session) - and it closes nothing itself before
returning: the source file fd stays stored (open) in the session and is
closed only later by the DMA destructor. -/
theorem C7_xdma_fail_path (dma0 : DMAState) (now : Nat) (file : Int)
    (offset length address : Nat) (xr : Int) (tOk iOk : Bool)
    (maxSize origLength : Nat) (rc : Nat → Int)
    (hx : xr < 0) (hf : 0 < file) (ht : dma0.timer = false) (hio : dma0.ioPtr = false)
    (hbc : dma0.ioPtrbc = false) :
    (transferAllRun dma0 now file offset length address xr tOk iOk).sent
        = [⟨PLDM_ERROR, 0⟩] ∧
    (transferAllRun dma0 now file offset length address xr tOk iOk).closedDuring = [] ∧
    (transferAllRun dma0 now file offset length address xr tOk iOk).timerSpec = none ∧
    (transferAllRun dma0 now file offset length address xr tOk iOk).dma.sourceFd = file ∧
    (transferAllRun dma0 now file offset length address xr tOk iOk).dma.ioRegistered
        = false ∧
    readyStep maxSize rc
        ((transferAllRun dma0 now file offset length address xr tOk iOk).session origLength)
      = (transferAllRun dma0 now file offset length address xr tOk iOk).session origLength ∧
    ((transferAllRun dma0 now file offset length address xr tOk iOk).dma.destruct).1
        = [file] := by
  have hnx : ¬ 0 < xr := by omega
  simp only [transferAllRun, if_pos hx, DMAState.setDMASourceFd, DMAState.getNewXdmaFd,
    DMAState.deleteIOInstance, DMAState.ioRegistered, DMAState.destruct, SetupOut.session,
    readyStep, ht, hio, hbc]
  simp [if_neg hnx, if_pos hf, ht, hio, hbc]

/-- C8 (amended): the page-aligned buffer size computed by the DMA
constructor equals ceil(length / pageSize) * pageSize - equal to length
itself when length is a page multiple, and otherwise length rounded down
to a page multiple plus one page - provided the rounded-up value does not
overflow uint32_t (length a page multiple, or length + pageSize <= 2^32);
at length = 2^32 - 1 the uint32_t addition wraps (see the
counterexample). -/
theorem C8_pageAligned_ceiling (L p : Nat) (hp : 0 < p)
    (h : L % p = 0 ∨ L + p ≤ U32) :
    (DMAState.init L p).pageAlignedLength = ((L + p - 1) / p) * p ∧
    (L % p = 0 → (DMAState.init L p).pageAlignedLength = L) := by
  have hinit : (DMAState.init L p).pageAlignedLength
      = if (L / p) * p < L then ((L / p) * p + p) % U32 else (L / p) * p := rfl
  by_cases hd : L % p = 0
  · have h1 : L / p * p = L := Nat.div_mul_cancel (Nat.dvd_of_mod_eq_zero hd)
    have h2 : ¬ L / p * p < L := by omega
    have h3 : (L + p - 1) / p = L / p := by
      have hL : p * (L / p) = L := by
        have := Nat.div_add_mod L p
        omega
      have h4 : L + p - 1 = (p - 1) + p * (L / p) := by omega
      rw [h4, Nat.add_mul_div_left _ _ hp, Nat.div_eq_of_lt (by omega)]
      omega
    rw [hinit, if_neg h2, h3]
    exact ⟨rfl, fun _ => h1⟩
  · rcases h with h | h
    · exact absurd h hd
    · have hr1 : 1 ≤ L % p := Nat.one_le_iff_ne_zero.mpr hd
      have hr2 : L % p < p := Nat.mod_lt _ hp
      have hL : p * (L / p) + L % p = L := Nat.div_add_mod L p
      have hc : L / p * p = p * (L / p) := Nat.mul_comm _ _
      have h1 : L / p * p < L := by omega
      have h2 : L / p * p + p < U32 := by omega
      have h3 : (L / p * p + p) % U32 = L / p * p + p := Nat.mod_eq_of_lt h2
      have h4 : (L + p - 1) / p = L / p + 1 := by
        have h5 : L + p - 1 = (L % p - 1) + p * (L / p + 1) := by
          have : p * (L / p + 1) = p * (L / p) + p := by ring
          omega
        rw [h5, Nat.add_mul_div_left _ _ hp, Nat.div_eq_of_lt (by omega)]
        omega
      rw [hinit, if_pos h1, h3, h4]
      constructor
      · ring
      · intro hcontra
        exact absurd hcontra hd

/-- C9: a session whose setup succeeds (DMA fd obtained, timer created, IO
registered) arms its watchdog with an absolute deadline 20 seconds from
now and a 1 second retrigger interval; a watchdog fire while the
response-received latch is unset appends the (PLDM_ERROR, 0) response
(and tears down the timer via deleteIOInstance); a fire with the latch
already set changes nothing. -/
theorem C9_watchdog (dma0 : DMAState) (now : Nat) (file : Int)
    (offset length address : Nat) (xr : Int) (hx : 0 ≤ xr) :
    (transferAllRun dma0 now file offset length address xr true true).timerSpec
        = some (now + 20, 1) ∧
    (∀ t : TransferState, t.dma.timer = true → t.dma.responseReceived = false →
        (timerStep t).sent = t.sent ++ [⟨PLDM_ERROR, 0⟩]) ∧
    (∀ t : TransferState, t.dma.responseReceived = true → (timerStep t).sent = t.sent) := by
  have hnx : ¬ xr < 0 := by omega
  refine ⟨?_, ?_, ?_⟩
  · simp only [transferAllRun, if_neg hnx, timerDeadline, timerInterval]
    simp
  · intro t ht hrr
    simp only [timerStep, ht, hrr, if_true, Bool.false_eq_true, if_false]
  · intro t hrr
    cases htm : t.dma.timer with
    | true => simp only [timerStep, htm, hrr, if_true]
    | false => simp only [timerStep, htm, Bool.false_eq_true, if_false]

/-- C10: the DMA destructor closes a stored descriptor only when its value
is strictly positive: every fd passed to close is positive, a positive
stored sourceFd or xdmaFd is indeed closed, and the descriptor value 0
(a valid fd) handed in through setDMASourceFd or setXDMASourceFd is never
closed. -/
theorem C10_close_only_positive :
    (∀ (s : DMAState) (v : Int), v ∈ (s.destruct).1 → 0 < v) ∧
    (∀ s : DMAState, 0 < s.sourceFd → s.sourceFd ∈ (s.destruct).1) ∧
    (∀ s : DMAState, 0 < s.xdmaFd → s.xdmaFd ∈ (s.destruct).1) ∧
    (∀ (s : DMAState) (fd : Int), fd ≤ 0 →
        fd ∉ ((s.setDMASourceFd fd).destruct).1 ∧
        fd ∉ ((s.setXDMASourceFd fd).destruct).1) := by
  refine ⟨?_, ?_, ?_, ?_⟩
  · intro s v hv
    simp only [DMAState.destruct, List.mem_append] at hv
    rcases hv with hv | hv
    · by_cases h : 0 < s.xdmaFd
      · rw [if_pos h] at hv
        simp only [List.mem_singleton] at hv
        omega
      · rw [if_neg h] at hv
        simp at hv
    · by_cases h : 0 < s.sourceFd
      · rw [if_pos h] at hv
        simp only [List.mem_singleton] at hv
        omega
      · rw [if_neg h] at hv
        simp at hv
  · intro s h
    simp only [DMAState.destruct, List.mem_append, if_pos h]
    right
    simp
  · intro s h
    simp only [DMAState.destruct, List.mem_append, if_pos h]
    left
    simp
  · intro s fd hfd
    constructor
    · intro hmem
      simp only [DMAState.setDMASourceFd, DMAState.destruct, List.mem_append] at hmem
      rcases hmem with hv | hv
      · by_cases h : 0 < s.xdmaFd
        · rw [if_pos h] at hv
          simp only [List.mem_singleton] at hv
          omega
        · rw [if_neg h] at hv
          simp at hv
      · have hnp : ¬ (0 : Int) < fd := by omega
        rw [if_neg hnp] at hv
        simp at hv
    · intro hmem
      simp only [DMAState.setXDMASourceFd, DMAState.destruct, List.mem_append] at hmem
      rcases hmem with hv | hv
      · have hnp : ¬ (0 : Int) < fd := by omega
        rw [if_neg hnp] at hv
        simp at hv
      · by_cases h : 0 < s.sourceFd
        · rw [if_pos h] at hv
          simp only [List.mem_singleton] at hv
          omega
        · rw [if_neg h] at hv
          simp at hv

/-- C1: running the session machine on a concrete armed session (length
16) with a watchdog fire followed by a late successful readiness event
emits TWO responses - the timeout (PLDM_ERROR, 0) and then
(PLDM_SUCCESS, 16): the readiness callback never consults the
responseReceived latch, the timeout path never sets it, and
deleteIOInstance leaves the IO event source registered. -/
theorem C1_double_response_after_timeout :
    (runEvents 16777216
      ((transferAllRun (DMAState.init 16 4096) 0 4 0 16 0 3 true true).session 16)
      [Ev.timerFire, Ev.ready (fun _ => 16)]).sent
      = [⟨PLDM_ERROR, 0⟩, ⟨PLDM_SUCCESS, 16⟩] := by decide

/-- C2: a session that obtains fds 3 (DMA) and 4 (source), maps the
shared buffer via getXDMAsharedlocation, completes a 16-byte transfer and
is then destroyed does release both fds, the timer and the IO object, but
the buffer is STILL MAPPED after the destructor: no munmap exists
anywhere in the DMA class. -/
theorem C2_mapping_never_unmapped :
    ((readyStep 16777216 (fun _ => 16)
        { dma := ((transferAllRun (DMAState.init 16 4096) 0 4 0 16 0 3 true
              true).dma.getXDMAsharedlocation true).2
          part := (transferAllRun (DMAState.init 16 4096) 0 4 0 16 0 3 true true).part
          origLength := 16
          sent := [] }).dma.destruct).1 = [3, 4] ∧
    ((readyStep 16777216 (fun _ => 16)
        { dma := ((transferAllRun (DMAState.init 16 4096) 0 4 0 16 0 3 true
              true).dma.getXDMAsharedlocation true).2
          part := (transferAllRun (DMAState.init 16 4096) 0 4 0 16 0 3 true true).part
          origLength := 16
          sent := [] }).dma.destruct).2.timer = false ∧
    ((readyStep 16777216 (fun _ => 16)
        { dma := ((transferAllRun (DMAState.init 16 4096) 0 4 0 16 0 3 true
              true).dma.getXDMAsharedlocation true).2
          part := (transferAllRun (DMAState.init 16 4096) 0 4 0 16 0 3 true true).part
          origLength := 16
          sent := [] }).dma.destruct).2.ioPtr = false ∧
    ((readyStep 16777216 (fun _ => 16)
        { dma := ((transferAllRun (DMAState.init 16 4096) 0 4 0 16 0 3 true
              true).dma.getXDMAsharedlocation true).2
          part := (transferAllRun (DMAState.init 16 4096) 0 4 0 16 0 3 true true).part
          origLength := 16
          sent := [] }).dma.destruct).2.ioPtrbc = false ∧
    ((readyStep 16777216 (fun _ => 16)
        { dma := ((transferAllRun (DMAState.init 16 4096) 0 4 0 16 0 3 true
              true).dma.getXDMAsharedlocation true).2
          part := (transferAllRun (DMAState.init 16 4096) 0 4 0 16 0 3 true true).part
          origLength := 16
          sent := [] }).dma.destruct).2.mapped = true := by decide

/-- C4 counterexample: with maxSize = 16777216 and a transfer of
maxSize + 1 bytes, a single readiness-callback invocation issues two
transferDataHost calls, not one, refuting that each invocation submits
exactly one chunk before yielding to the reactor. -/
theorem C4_multiple_chunks_one_wake :
    (callbackRun 16777216 16777217 (fun _ => 0) ⟨16777217, 0, 0⟩).calls.length = 2 ∧
    ¬ (callbackRun 16777216 16777217 (fun _ => 0) ⟨16777217, 0, 0⟩).calls.length = 1 := by
  decide

/-- C5: the static IOPart cell is shared by every transferAll call:
starting session B (16 bytes at offset 100, address 500) after session A
(33554432 bytes at offset 0, address 0) overwrites A's in-flight plan,
and A's subsequent readiness callback transfers B's 16-byte range while
reporting PLDM_SUCCESS with A's original length 33554432. -/
theorem C5_static_part_clobbered :
    (transferAllRun (DMAState.init 16 4096) 0 6 100 16 500 5 true true).part
        = ⟨16, 100, 500⟩ ∧
    ¬ (transferAllRun (DMAState.init 16 4096) 0 6 100 16 500 5 true true).part
        = (transferAllRun (DMAState.init 33554432 4096) 0 4 0 33554432 0 3 true
            true).part ∧
    (callbackRun 16777216 33554432 (fun _ => 16)
        (transferAllRun (DMAState.init 16 4096) 0 6 100 16 500 5 true true).part).calls
        = [⟨16, 100, 500⟩] ∧
    (callbackRun 16777216 33554432 (fun _ => 16)
        (transferAllRun (DMAState.init 16 4096) 0 6 100 16 500 5 true
          true).part).response = some ⟨PLDM_SUCCESS, 33554432⟩ := by decide

/-- C7 counterexample: on the DMA-open failure path transferAll closes
nothing before returning - the source fd 4 is still stored open in the
session when transferAll returns - refuting that the source fd is closed
before return. -/
theorem C7_source_fd_open_at_return :
    (transferAllRun (DMAState.init 16 4096) 0 4 0 16 0 (-1) true true).sent
        = [⟨PLDM_ERROR, 0⟩] ∧
    (transferAllRun (DMAState.init 16 4096) 0 4 0 16 0 (-1) true true).closedDuring = [] ∧
    (transferAllRun (DMAState.init 16 4096) 0 4 0 16 0 (-1) true true).dma.sourceFd = 4 := by
  decide

/-- C8 counterexample: at length 2^32 - 1 with page size 4096 the uint32_t
increment wraps and the computed page-aligned length is 0, not the
ceiling 2^32. -/
theorem C8_pageAligned_overflow :
    (DMAState.init (U32 - 1) 4096).pageAlignedLength = 0 ∧
    ¬ (DMAState.init (U32 - 1) 4096).pageAlignedLength
        = ((U32 - 1) + 4096 - 1) / 4096 * 4096 := by decide

/-- C3 witness: concrete instance with maxSize 16 and a 40-byte transfer
from offset 7, address 11. -/
theorem C3_chunk_plan_witness :
    (callbackRun 16 40 (fun _ => 0) ⟨40, 7, 11⟩).calls.length = (40 + 16 - 1) / 16 ∧
    (∃ cs c, (callbackRun 16 40 (fun _ => 0) ⟨40, 7, 11⟩).calls = cs ++ [c] ∧
        (∀ x ∈ cs, x.length = 16) ∧ c.length = 40 - 16 * cs.length) ∧
    chainedFrom 7 11 (callbackRun 16 40 (fun _ => 0) ⟨40, 7, 11⟩).calls = true ∧
    ((callbackRun 16 40 (fun _ => 0) ⟨40, 7, 11⟩).calls.map fun c => c.length).sum = 40 :=
  C3_chunk_plan 16 40 7 11 40 (fun _ => 0) (by decide) (by decide) (by decide) (by decide)
    (fun k => le_refl 0)

/-- C4 witness: concrete instance with maxSize 16 and a 40-byte transfer,
three calls in one invocation. -/
theorem C4_all_chunks_single_invocation_witness :
    (callbackRun 16 40 (fun _ => 1) ⟨40, 0, 0⟩).calls.length = (40 + 16 - 1) / 16 ∧
    2 ≤ (callbackRun 16 40 (fun _ => 1) ⟨40, 0, 0⟩).calls.length :=
  C4_all_chunks_single_invocation 16 40 0 0 40 (fun _ => 1) (by decide) (by decide)
    (by decide) (by decide) (fun k => zero_le_one)

/-- C6 witness: a single 16-byte chunk whose final return code equals the
tail yields the success response, and a concrete armed session with the
latch unset gets the timeout response on a watchdog fire. -/
theorem C6_terminal_responses_witness :
    (callbackRun 16 16 (fun _ => 16) ⟨16, 0, 0⟩).response = some ⟨PLDM_SUCCESS, 16⟩ ∧
    (timerStep
      { dma :=
          { responseReceived := false, mapped := false, xdmaFd := 3, sourceFd := 4,
            pageAlignedLength := 4096, ioPtr := true, ioPtrbc := false, timer := true,
            m_length := 16 }
        part := ⟨16, 0, 0⟩, origLength := 16, sent := [] }).sent = [⟨PLDM_ERROR, 0⟩] :=
  ⟨(C6_terminal_responses 16 16 (fun _ => 16) ⟨16, 0, 0⟩).2.1.mpr (by decide),
    (C6_terminal_responses 16 16 (fun _ => 16) ⟨16, 0, 0⟩).2.2.2.2 _ rfl rfl⟩

/-- C7 witness: concrete DMA-open failure (open returns -1, source fd 4). -/
theorem C7_xdma_fail_path_witness :
    (transferAllRun (DMAState.init 16 4096) 0 4 0 16 0 (-1) true true).sent
        = [⟨PLDM_ERROR, 0⟩] ∧
    (transferAllRun (DMAState.init 16 4096) 0 4 0 16 0 (-1) true true).closedDuring = [] ∧
    (transferAllRun (DMAState.init 16 4096) 0 4 0 16 0 (-1) true true).timerSpec = none ∧
    (transferAllRun (DMAState.init 16 4096) 0 4 0 16 0 (-1) true true).dma.sourceFd = 4 ∧
    (transferAllRun (DMAState.init 16 4096) 0 4 0 16 0 (-1) true true).dma.ioRegistered
        = false ∧
    readyStep 16 (fun _ => 0)
        ((transferAllRun (DMAState.init 16 4096) 0 4 0 16 0 (-1) true true).session 16)
      = (transferAllRun (DMAState.init 16 4096) 0 4 0 16 0 (-1) true true).session 16 ∧
    ((transferAllRun (DMAState.init 16 4096) 0 4 0 16 0 (-1) true true).dma.destruct).1
        = [4] :=
  C7_xdma_fail_path (DMAState.init 16 4096) 0 4 0 16 0 (-1) true true 16 16 (fun _ => 0)
    (by decide) (by decide) rfl rfl rfl

/-- C8 witness: length 16, page size 4096 - one page is allocated. -/
theorem C8_pageAligned_ceiling_witness :
    (DMAState.init 16 4096).pageAlignedLength = ((16 + 4096 - 1) / 4096) * 4096 ∧
    (16 % 4096 = 0 → (DMAState.init 16 4096).pageAlignedLength = 16) :=
  C8_pageAligned_ceiling 16 4096 (by decide) (Or.inr (by decide))

/-- C9 witness: setup at now = 5 arms the timer for (25, 1); a fire with
the latch set leaves the sent list unchanged. -/
theorem C9_watchdog_witness :
    (transferAllRun (DMAState.init 16 4096) 5 4 0 16 0 3 true true).timerSpec
        = some (25, 1) ∧
    (timerStep
      { dma :=
          { responseReceived := true, mapped := false, xdmaFd := 3, sourceFd := 4,
            pageAlignedLength := 4096, ioPtr := true, ioPtrbc := false, timer := true,
            m_length := 16 }
        part := ⟨16, 0, 0⟩, origLength := 16, sent := [⟨PLDM_SUCCESS, 16⟩] }).sent
        = [⟨PLDM_SUCCESS, 16⟩] :=
  ⟨(C9_watchdog (DMAState.init 16 4096) 5 4 0 16 0 3 (by decide)).1,
    (C9_watchdog (DMAState.init 16 4096) 5 4 0 16 0 3 (by decide)).2.2 _ rfl⟩

/-- C10 witness: fd 4 handed through setDMASourceFd is closed by the
destructor; fd 0 handed the same way is not. -/
theorem C10_close_only_positive_witness :
    (4 : Int) ∈ (((DMAState.init 16 4096).setDMASourceFd 4).destruct).1 ∧
    (0 : Int) ∉ (((DMAState.init 16 4096).setDMASourceFd 0).destruct).1 :=
  ⟨(C10_close_only_positive).2.1 _ (by decide),
    ((C10_close_only_positive).2.2.2 _ 0 (by decide)).1⟩
